import Mathlib

/-!
Shallow embedding of `watcher.go` from the casbin redis watcher package
(`rediswatcher`).  The Go code performs network effects through a
`redis.Conn`; we embed each function as a pure Lean function that takes an
explicit environment (`RedisEnv`, fixing the outcome of each redis call and
the sequence of events the pub/sub connection delivers) and returns the
sequence of externally visible actions it performs together with its result.
-/

namespace RedisWatcher

/-- A redis connection (`redis.Conn`), identified abstractly by a number. -/
abbrev Conn := Nat

/-- `WatcherOptions` as used by `watcher.go`: channel name, network protocol,
optional password (Go zero value `""` means unset) and an optional
pre-established connection (Go `nil` means unset). -/
structure WatcherOptions where
  Channel : String
  Protocol : String
  Password : String
  Connection : Option Conn
deriving DecidableEq

/-- The `Watcher` struct: resolved options, the live connection and the
registered callback.  A Go `func(string)` callback is represented by an
identifier, so that traces can record which callback ran on which payload;
`none` is Go's `nil` callback. -/
structure Watcher where
  options : WatcherOptions
  connection : Conn
  callback : Option Nat
deriving DecidableEq

/-- Events delivered by `redis.PubSubConn.Receive`: an error, a data message
(`redis.Message`, carrying channel and payload), a subscription-count event
(`redis.Subscription`, carrying kind, channel and count), or any other event
kind (e.g. `redis.Pong`), which the `switch` in `subscribe` ignores. -/
inductive RedisEvent where
  | err (msg : String)
  | message (channel : String) (data : String)
  | subscription (kind : String) (channel : String) (count : Int)
  | other
deriving DecidableEq

/-- Externally visible actions of the watcher, in the order performed. -/
inductive Action where
  | dial (protocol : String) (addr : String)
  | doCmd (conn : Conn) (cmd : String) (args : List String)
  | closeConn (conn : Conn)
  | subscribeCmd (conn : Conn) (channel : String)
  | unsubscribeCmd (conn : Conn)
  | invokeCallback (cb : Nat) (payload : String)
  | logSubscribeFailure (msg : String)
  | setFinalizer
  | startLoop
deriving DecidableEq

/-- Environment fixing the outcome of each redis operation during one
construction / one subscription attempt: the result of `redis.Dial`, of the
`AUTH` command, of the `PUBLISH` command, of `psc.Subscribe`, of the deferred
`psc.Unsubscribe` (whose result the Go code discards), and the list of events
`psc.Receive` delivers in order. -/
structure RedisEnv where
  dialResult : Except String Conn
  authResult : Except String Unit
  publishResult : Except String Unit
  subscribeResult : Option String
  unsubscribeResult : Option String
  events : List RedisEvent

/-- How one call of `subscribe` ended: `clean` for `return nil`,
`withError msg` for returning an error. -/
inductive LoopExit where
  | clean
  | withError (msg : String)
deriving DecidableEq

/-- The defaults installed by `NewWatcher` before applying setters:
`Channel = "/casbin"`, `Protocol = "tcp"`; the remaining fields keep their Go
zero values. -/
def defaultOptions : WatcherOptions :=
  { Channel := "/casbin", Protocol := "tcp", Password := "", Connection := none }

/-- The `for _, setter := range setters { setter(&w.options) }` loop of
`NewWatcher`: each setter is applied, in order, to the result of the previous
one, starting from the defaults. -/
def applySetters (setters : List (WatcherOptions → WatcherOptions)) : WatcherOptions :=
  setters.foldl (fun o s => s o) defaultOptions

/-- `Watcher.connect`: adopt the connection from options if one was supplied;
otherwise dial `protocol, addr`, then, if a password is set, issue `AUTH` and
close the fresh connection on rejection.  Returns the trace of actions and
either the established connection or the error. -/
def connect (opts : WatcherOptions) (addr : String) (env : RedisEnv) :
    List Action × Except String Conn :=
  match opts.Connection with
  | some c => ([], .ok c)
  | none =>
    match env.dialResult with
    | .error e => ([.dial opts.Protocol addr], .error e)
    | .ok c =>
      if opts.Password ≠ "" then
        match env.authResult with
        | .error e =>
            ([.dial opts.Protocol addr, .doCmd c "AUTH" [opts.Password], .closeConn c],
             .error e)
        | .ok _ =>
            ([.dial opts.Protocol addr, .doCmd c "AUTH" [opts.Password]], .ok c)
      else
        ([.dial opts.Protocol addr], .ok c)

/-- The `for { switch psc.Receive() ... }` loop inside `Watcher.subscribe`,
run over a finite prefix of delivered events.  An error event returns it; a
data message invokes the callback (when one is registered) and continues; a
subscription event with count `0` returns `nil`; everything else continues.
Result `none` means every supplied event was consumed and the loop is still
blocked in `Receive`. -/
def receiveLoop (cb : Option Nat) : List RedisEvent → List Action × Option LoopExit
  | [] => ([], none)
  | ev :: rest =>
    match ev with
    | .err msg => ([], some (.withError msg))
    | .message _ data =>
        let r := receiveLoop cb rest
        (match cb with
         | some i => .invokeCallback i data :: r.1
         | none => r.1,
         r.2)
    | .subscription _ _ count =>
        if count = 0 then ([], some .clean) else receiveLoop cb rest
    | .other => receiveLoop cb rest

/-- `Watcher.subscribe`: issue `SUBSCRIBE` on the shared connection (failing
fast if that fails), then run the receive loop; when the loop returns (by
error or by a zero count), the deferred `psc.Unsubscribe()` runs, its own
result discarded.  Result `none` means the call is still blocked receiving. -/
def subscribe (w : Watcher) (env : RedisEnv) : List Action × Option LoopExit :=
  match env.subscribeResult with
  | some e => ([.subscribeCmd w.connection w.options.Channel], some (.withError e))
  | none =>
    let r := receiveLoop w.callback env.events
    match r.2 with
    | some exit =>
        (.subscribeCmd w.connection w.options.Channel :: r.1 ++
           [.unsubscribeCmd w.connection],
         some exit)
    | none => (.subscribeCmd w.connection w.options.Channel :: r.1, none)

/-- The goroutine body started by `NewWatcher`:
`for { err := w.subscribe(); if err != nil { fmt.Printf(...) } }`.
Each element of the list is the environment of one `subscribe` attempt; a
failed attempt contributes a log line and the loop goes straight on to the
next attempt.  An attempt that never returns (still blocked in `Receive`)
ends the finite trace. -/
def backgroundLoop (w : Watcher) : List RedisEnv → List Action
  | [] => []
  | env :: rest =>
    match subscribe w env with
    | (acts, none) => acts
    | (acts, some .clean) => acts ++ backgroundLoop w rest
    | (acts, some (.withError msg)) =>
        acts ++ .logSubscribeFailure msg :: backgroundLoop w rest

/-- `NewWatcher`: install defaults, apply the setters in order, connect, and
on success register the finalizer and start the background goroutine
(recorded as `setFinalizer` and `startLoop` actions).  On a `connect` failure
the error is returned and neither happens. -/
def NewWatcher (addr : String) (setters : List (WatcherOptions → WatcherOptions))
    (env : RedisEnv) : List Action × Except String Watcher :=
  match connect (applySetters setters) addr env with
  | (acts, .error e) => (acts, .error e)
  | (acts, .ok c) =>
      (acts ++ [.setFinalizer, .startLoop],
       .ok { options := applySetters setters, connection := c, callback := none })

/-- `Watcher.SetUpdateCallback`: store the callback; always returns `nil`. -/
def SetUpdateCallback (w : Watcher) (cb : Nat) : Watcher × Option String :=
  ({ w with callback := some cb }, none)

/-- `Watcher.Update`: one `PUBLISH` of the fixed payload
`"casbin rules updated"` on the configured channel; returns the error of that
command, if any. -/
def Update (w : Watcher) (env : RedisEnv) : List Action × Option String :=
  ([.doCmd w.connection "PUBLISH" [w.options.Channel, "casbin rules updated"]],
   match env.publishResult with
   | .error e => some e
   | .ok _ => none)

/-- `finalizer`: close the connection. -/
def finalizer (w : Watcher) : List Action :=
  [.closeConn w.connection]

/-- Whether an action closes a connection. -/
def Action.isClose : Action → Bool
  | .closeConn _ => true
  | _ => false

/-- Whether an action invokes the callback. -/
def Action.isInvoke : Action → Bool
  | .invokeCallback _ _ => true
  | _ => false

/-- Whether an action is a `PUBLISH` command. -/
def Action.isPublish : Action → Bool
  | .doCmd _ cmd _ => cmd = "PUBLISH"
  | _ => false

/-- Modelled from the spec: the `Channel` option setter from the options file
(not under `src/`), used only as concrete test data for setter application. -/
def setChannel (ch : String) : WatcherOptions → WatcherOptions :=
  fun o => { o with Channel := ch }

/-- Modelled from the spec: the `Password` option setter from the options file
(not under `src/`), used only as concrete test data for setter application. -/
def setPassword (pw : String) : WatcherOptions → WatcherOptions :=
  fun o => { o with Password := pw }

/-- Modelled from the spec: the `WithRedisConnection` option setter from the
options file (not under `src/`), used only as concrete test data. -/
def withConnection (c : Conn) : WatcherOptions → WatcherOptions :=
  fun o => { o with Connection := some c }

/-- A benign environment: dialing yields connection `1`, every command
succeeds, no events are delivered yet. -/
def envOk : RedisEnv :=
  { dialResult := .ok 1, authResult := .ok (), publishResult := .ok (),
    subscribeResult := none, unsubscribeResult := none, events := [] }

/-- Environment in which `redis.Dial` fails. -/
def envDialFail : RedisEnv :=
  { envOk with dialResult := .error "connection refused" }

/-- Environment in which `AUTH` is rejected. -/
def envAuthFail : RedisEnv :=
  { envOk with authResult := .error "ERR invalid password" }

/-- Environment in which the first received event is an error. -/
def envErrEvent : RedisEnv :=
  { envOk with events := [.err "EOF"] }

/-- Environment in which the first received event is a subscription-count
event with count `0`. -/
def envCountZero : RedisEnv :=
  { envOk with events := [.subscription "unsubscribe" "/casbin" 0] }

/-- A watcher with default options, connection `1` and no callback, exactly
what `NewWatcher "" [] envOk` constructs. -/
def wDemo : Watcher :=
  { options := defaultOptions, connection := 1, callback := none }

/-- The watcher that `NewWatcher "" [setChannel ..., setPassword ..., setChannel ...] envOk`
constructs, used as concrete witness data. -/
def wCustom : Watcher :=
  { options := applySetters [setChannel "/custom", setPassword "pw", setChannel "/x"],
    connection := 1, callback := none }

/-- The receive loop never closes a connection. -/
theorem receiveLoop_isClose_false (cb : Option Nat) (evs : List RedisEvent) :
    ∀ a ∈ (receiveLoop cb evs).1, a.isClose = false := by
  induction evs with
  | nil => simp [receiveLoop]
  | cons ev rest ih =>
    cases ev with
    | err msg => simp [receiveLoop]
    | message ch data =>
      cases cb with
      | none => simpa [receiveLoop] using ih
      | some i =>
        intro a ha
        simp only [receiveLoop] at ha
        rcases List.mem_cons.mp ha with h | h
        · subst h; rfl
        · exact ih a h
    | subscription k ch n =>
      by_cases h : n = 0
      · simp [receiveLoop, h]
      · simpa [receiveLoop, h] using ih
    | other => simpa [receiveLoop] using ih

/-- A single `subscribe` attempt never closes a connection. -/
theorem subscribe_isClose_false (w : Watcher) (env : RedisEnv) :
    ∀ a ∈ (subscribe w env).1, a.isClose = false := by
  intro a ha
  unfold subscribe at ha
  cases hs : env.subscribeResult with
  | some e => rw [hs] at ha; simp at ha; subst ha; rfl
  | none =>
    rw [hs] at ha
    simp only at ha
    cases hr : (receiveLoop w.callback env.events).2 with
    | some exit =>
      rw [hr] at ha
      rcases List.mem_cons.mp ha with h | h
      · subst h; rfl
      · rcases List.mem_append.mp h with h2 | h2
        · exact receiveLoop_isClose_false w.callback env.events a h2
        · have h3 := List.mem_singleton.mp h2
          subst h3; rfl
    | none =>
      rw [hr] at ha
      rcases List.mem_cons.mp ha with h | h
      · subst h; rfl
      · exact receiveLoop_isClose_false w.callback env.events a h

/-- The background loop never closes a connection. -/
theorem backgroundLoop_isClose_false (w : Watcher) (envs : List RedisEnv) :
    ∀ a ∈ backgroundLoop w envs, a.isClose = false := by
  induction envs with
  | nil => simp [backgroundLoop]
  | cons env rest ih =>
    intro a ha
    unfold backgroundLoop at ha
    rcases hs : subscribe w env with ⟨acts, res⟩
    rw [hs] at ha
    have hacts : ∀ b ∈ acts, Action.isClose b = false := by
      intro b hb
      exact subscribe_isClose_false w env b (by rw [hs]; exact hb)
    cases res with
    | none => exact hacts a ha
    | some exit =>
      cases exit with
      | clean =>
        rcases List.mem_append.mp ha with h | h
        · exact hacts a h
        · exact ih a h
      | withError msg =>
        rcases List.mem_append.mp ha with h | h
        · exact hacts a h
        · rcases List.mem_cons.mp h with h2 | h2
          · subst h2; rfl
          · exact ih a h2

/-- With no registered callback the receive loop never invokes a callback. -/
theorem receiveLoop_none_no_invoke (evs : List RedisEvent) :
    ∀ a ∈ (receiveLoop none evs).1, a.isInvoke = false := by
  induction evs with
  | nil => simp [receiveLoop]
  | cons ev rest ih =>
    cases ev with
    | err msg => simp [receiveLoop]
    | message ch data => simpa [receiveLoop] using ih
    | subscription k ch n =>
      by_cases h : n = 0
      · simp [receiveLoop, h]
      · simpa [receiveLoop, h] using ih
    | other => simpa [receiveLoop] using ih

/-- With no registered callback, a list made only of data messages is fully
consumed without any action and the loop is still blocked receiving. -/
theorem receiveLoop_none_messages (evs : List RedisEvent)
    (h : ∀ ev ∈ evs, ∃ ch d, ev = RedisEvent.message ch d) :
    receiveLoop none evs = ([], none) := by
  induction evs with
  | nil => rfl
  | cons ev rest ih =>
    rcases h ev (List.mem_cons_self ev rest) with ⟨ch, d, rfl⟩
    have := ih (fun e he => h e (List.mem_cons_of_mem _ he))
    simp [receiveLoop, this]

/-- On success, the watcher `NewWatcher` returns carries exactly the options
obtained by folding the setters over the defaults, and no callback. -/
theorem NewWatcher_ok (addr : String) (setters : List (WatcherOptions → WatcherOptions))
    (env : RedisEnv) (w : Watcher) (h : (NewWatcher addr setters env).2 = .ok w) :
    w = { options := applySetters setters,
          connection := w.connection, callback := none } := by
  unfold NewWatcher at h
  rcases hc : connect (applySetters setters) addr env with ⟨acts, res⟩
  rw [hc] at h
  cases res with
  | error e => simp at h
  | ok c =>
    simp at h
    subst h
    rfl

/-- C1: when the background loop receives a data message, a registered
callback is invoked synchronously exactly once with the payload as a string
(exactly one `invokeCallback` action, placed before everything the rest of
the loop does); with no callback the message is discarded (no action at all);
in both cases the loop continues receiving on the remaining events. -/
theorem C1_data_message (cb : Option Nat) (ch data : String) (rest : List RedisEvent) :
    receiveLoop cb (.message ch data :: rest) =
      ((match cb with
        | some i => [Action.invokeCallback i data]
        | none => []) ++ (receiveLoop cb rest).1,
       (receiveLoop cb rest).2) := by
  cases cb <;> simp [receiveLoop]

/-- C2: `Update` issues exactly one `PUBLISH` of the fixed marker payload
`"casbin rules updated"` on the configured channel, returns an error exactly
when that publish fails, and never retries (the trace is that single command
in every environment). -/
theorem C2_update_publish (w : Watcher) (env : RedisEnv) :
    (Update w env).1 =
      [Action.doCmd w.connection "PUBLISH" [w.options.Channel, "casbin rules updated"]] ∧
    (Update w env).1.countP Action.isPublish = 1 ∧
    ((Update w env).2 = none ↔ env.publishResult = .ok ()) ∧
    (∀ e, env.publishResult = .error e → (Update w env).2 = some e) := by
  refine ⟨rfl, by simp [Update, Action.isPublish, List.countP_cons], ?_, ?_⟩
  · cases h : env.publishResult with
    | error e => simp [Update, h]
    | ok u => cases u; simp [Update, h]
  · intro e he; simp [Update, he]

/-- C3: constructing with a password set and no supplied connection, when the
`AUTH` command is rejected, closes the freshly dialed connection before
returning, returns the auth error, and leaves no open connection (the trace
is exactly dial, `AUTH`, close) and does not start the background loop. -/
theorem C3_auth_failure (addr : String) (setters : List (WatcherOptions → WatcherOptions))
    (env : RedisEnv) (c : Conn) (e : String)
    (hconn : (applySetters setters).Connection = none)
    (hpw : (applySetters setters).Password ≠ "")
    (hdial : env.dialResult = .ok c) (hauth : env.authResult = .error e) :
    NewWatcher addr setters env =
      ([.dial (applySetters setters).Protocol addr,
        .doCmd c "AUTH" [(applySetters setters).Password], .closeConn c],
       .error e) ∧
    Action.closeConn c ∈ (NewWatcher addr setters env).1 ∧
    Action.startLoop ∉ (NewWatcher addr setters env).1 := by
  have hc : connect (applySetters setters) addr env =
      ([.dial (applySetters setters).Protocol addr,
        .doCmd c "AUTH" [(applySetters setters).Password], .closeConn c],
       .error e) := by
    unfold connect
    rw [hconn, hdial]
    simp [hpw, hauth]
  have hn : NewWatcher addr setters env =
      ([.dial (applySetters setters).Protocol addr,
        .doCmd c "AUTH" [(applySetters setters).Password], .closeConn c],
       .error e) := by
    unfold NewWatcher
    rw [hc]
  refine ⟨hn, ?_, ?_⟩
  · rw [hn]; simp
  · rw [hn]; simp

/-- C4: constructing with no supplied connection, when dialing fails, returns
the dial error and no watcher; the trace is the dial attempt alone, so the
background loop is never started. -/
theorem C4_dial_failure (addr : String) (setters : List (WatcherOptions → WatcherOptions))
    (env : RedisEnv) (e : String)
    (hconn : (applySetters setters).Connection = none)
    (hdial : env.dialResult = .error e) :
    NewWatcher addr setters env =
      ([.dial (applySetters setters).Protocol addr], .error e) ∧
    Action.startLoop ∉ (NewWatcher addr setters env).1 := by
  have hc : connect (applySetters setters) addr env =
      ([.dial (applySetters setters).Protocol addr], .error e) := by
    unfold connect
    rw [hconn, hdial]
  have hn : NewWatcher addr setters env =
      ([.dial (applySetters setters).Protocol addr], .error e) := by
    unfold NewWatcher
    rw [hc]
  exact ⟨hn, by rw [hn]; simp⟩

/-- C5: when a pre-established connection is supplied via options it is
adopted as-is: construction performs no dial and no `AUTH` (even when a
password option is set — the trace holds only the finalizer registration and
loop start), and the broker address and the whole network environment are
ignored (any two produce identical results). -/
theorem C5_adopt_connection (addr addr' : String)
    (setters : List (WatcherOptions → WatcherOptions))
    (env env' : RedisEnv) (c : Conn)
    (hconn : (applySetters setters).Connection = some c) :
    NewWatcher addr setters env =
      ([.setFinalizer, .startLoop],
       .ok { options := applySetters setters, connection := c, callback := none }) ∧
    NewWatcher addr setters env = NewWatcher addr' setters env' := by
  have hc : ∀ (a : String) (ev : RedisEnv),
      connect (applySetters setters) a ev = ([], .ok c) := by
    intro a ev
    unfold connect
    rw [hconn]
  have hn : ∀ (a : String) (ev : RedisEnv),
      NewWatcher a setters ev =
        ([.setFinalizer, .startLoop],
         .ok { options := applySetters setters, connection := c, callback := none }) := by
    intro a ev
    unfold NewWatcher
    rw [hc a ev]
    rfl
  exact ⟨hn addr env, by rw [hn addr env, hn addr' env']⟩

/-- C6: when the blocking receive yields an error event the receive loop is
aborted at once (later events are never consumed), a best-effort unsubscribe
is issued whose own outcome is ignored (the result is the same for every
unsubscribe outcome), the error reaches only a log line (the background loop
returns no error, only a `logSubscribeFailure` action), and the loop retries
subscribing immediately: the very next actions after the log line are those
of the next attempt, with nothing — no delay, no backoff, no retry bound —
in between, and the loop goes on through every further attempt. -/
theorem C6_error_event (w : Watcher) (env : RedisEnv) (tail : List RedisEvent)
    (msg : String) (rest : List RedisEnv) (r : Option String)
    (hsub : env.subscribeResult = none)
    (hev : env.events = .err msg :: tail) :
    subscribe w env =
      ([.subscribeCmd w.connection w.options.Channel, .unsubscribeCmd w.connection],
       some (.withError msg)) ∧
    subscribe w { env with unsubscribeResult := r } = subscribe w env ∧
    backgroundLoop w (env :: rest) =
      [.subscribeCmd w.connection w.options.Channel, .unsubscribeCmd w.connection,
       .logSubscribeFailure msg] ++ backgroundLoop w rest := by
  have hs : subscribe w env =
      ([.subscribeCmd w.connection w.options.Channel, .unsubscribeCmd w.connection],
       some (.withError msg)) := by
    unfold subscribe
    rw [hsub, hev]
    simp [receiveLoop]
  refine ⟨hs, ?_, ?_⟩
  · have hs2 : subscribe w { env with unsubscribeResult := r } =
        ([.subscribeCmd w.connection w.options.Channel, .unsubscribeCmd w.connection],
         some (.withError msg)) := by
      unfold subscribe
      rw [show ({ env with unsubscribeResult := r } : RedisEnv).subscribeResult = none from hsub]
      rw [show ({ env with unsubscribeResult := r } : RedisEnv).events = .err msg :: tail from hev]
      simp [receiveLoop]
    rw [hs2, hs]
  · simp only [backgroundLoop]
    rw [hs]
    rfl

/-- C7: construction starts from the defaults `channel = "/casbin"` and
`protocol = "tcp"` (password unset, no connection) and applies the setters in
order, each over the result of the previous; appending a further setter acts
on the fold of the earlier ones, so a later setter for the same field
overrides an earlier one and untouched fields keep their defaults; the
constructed watcher carries exactly the folded options. -/
theorem C7_defaults_and_order (addr : String)
    (setters : List (WatcherOptions → WatcherOptions)) (env : RedisEnv) (w : Watcher)
    (h : (NewWatcher addr setters env).2 = .ok w) :
    w.options = applySetters setters ∧
    applySetters [] =
      { Channel := "/casbin", Protocol := "tcp", Password := "", Connection := none } ∧
    (∀ (ss : List (WatcherOptions → WatcherOptions)) (s : WatcherOptions → WatcherOptions),
      applySetters (ss ++ [s]) = s (applySetters ss)) := by
  refine ⟨?_, rfl, ?_⟩
  · have := NewWatcher_ok addr setters env w h
    rw [this]
  · intro ss s
    simp [applySetters, List.foldl_append]

/-- C8: a subscription-count event with count zero makes the receive loop
return `nil`: the deferred unsubscribe runs and the attempt ends cleanly —
the background loop logs nothing for it and simply proceeds to the next
subscription attempt. -/
theorem C8_count_zero (w : Watcher) (env : RedisEnv) (kind ch : String)
    (tail : List RedisEvent) (rest : List RedisEnv)
    (hsub : env.subscribeResult = none)
    (hev : env.events = .subscription kind ch 0 :: tail) :
    subscribe w env =
      ([.subscribeCmd w.connection w.options.Channel, .unsubscribeCmd w.connection],
       some .clean) ∧
    backgroundLoop w (env :: rest) =
      [.subscribeCmd w.connection w.options.Channel, .unsubscribeCmd w.connection] ++
        backgroundLoop w rest := by
  have hs : subscribe w env =
      ([.subscribeCmd w.connection w.options.Channel, .unsubscribeCmd w.connection],
       some .clean) := by
    unfold subscribe
    rw [hsub, hev]
    simp [receiveLoop]
  refine ⟨hs, ?_⟩
  simp only [backgroundLoop]
  rw [hs]

/-- C9: the finalizer registered at construction closes the underlying
connection exactly once, and after a successful construction no other path
closes it: the construction trace registers the finalizer and contains no
close, and neither `Update`, nor the background loop, nor `SetUpdateCallback`
(which does not touch the connection) ever closes a connection. -/
theorem C9_close_exactly_once (addr : String)
    (setters : List (WatcherOptions → WatcherOptions)) (env : RedisEnv) (w : Watcher)
    (h : (NewWatcher addr setters env).2 = .ok w) :
    finalizer w = [Action.closeConn w.connection] ∧
    (finalizer w).countP Action.isClose = 1 ∧
    Action.setFinalizer ∈ (NewWatcher addr setters env).1 ∧
    (∀ a ∈ (NewWatcher addr setters env).1, a.isClose = false) ∧
    (∀ envU, ∀ a ∈ (Update w envU).1, a.isClose = false) ∧
    (∀ envs, ∀ a ∈ backgroundLoop w envs, a.isClose = false) ∧
    (∀ cb, ((SetUpdateCallback w cb).1).connection = w.connection) := by
  have hw : ∀ c, (connect (applySetters setters) addr env).2 = .ok c →
      ∀ a ∈ (connect (applySetters setters) addr env).1, Action.isClose a = false := by
    intro c hres a ha
    rcases hcase : (applySetters setters).Connection with _ | c0
    · rcases hd : env.dialResult with e | c1
      · have heq : connect (applySetters setters) addr env =
            ([.dial (applySetters setters).Protocol addr], .error e) := by
          unfold connect
          rw [hcase, hd]
        rw [heq] at hres
        simp at hres
      · by_cases hp : (applySetters setters).Password = ""
        · have heq : connect (applySetters setters) addr env =
              ([.dial (applySetters setters).Protocol addr], .ok c1) := by
            unfold connect
            rw [hcase, hd]
            simp [hp]
          rw [heq] at ha
          have h2 := List.mem_singleton.mp ha
          subst h2; rfl
        · rcases hauth : env.authResult with e | u
          · have heq : connect (applySetters setters) addr env =
                ([.dial (applySetters setters).Protocol addr,
                  .doCmd c1 "AUTH" [(applySetters setters).Password], .closeConn c1],
                 .error e) := by
              unfold connect
              rw [hcase, hd]
              simp [hp, hauth]
            rw [heq] at hres
            simp at hres
          · have heq : connect (applySetters setters) addr env =
                ([.dial (applySetters setters).Protocol addr,
                  .doCmd c1 "AUTH" [(applySetters setters).Password]], .ok c1) := by
              unfold connect
              rw [hcase, hd]
              simp [hp, hauth]
            rw [heq] at ha
            rcases List.mem_cons.mp ha with h1 | h1
            · subst h1; rfl
            · have h2 := List.mem_singleton.mp h1
              subst h2; rfl
    · have heq : connect (applySetters setters) addr env = ([], .ok c0) := by
        unfold connect
        rw [hcase]
      rw [heq] at ha
      simp at ha
  refine ⟨rfl, by simp [finalizer, Action.isClose, List.countP_cons], ?_, ?_, ?_, ?_, ?_⟩
  · unfold NewWatcher
    rcases hc : connect (applySetters setters) addr env with ⟨acts, res⟩
    cases res with
    | error e =>
        exfalso
        unfold NewWatcher at h
        rw [hc] at h
        simp at h
    | ok c => simp
  · intro a ha
    unfold NewWatcher at ha
    rcases hc : connect (applySetters setters) addr env with ⟨acts, res⟩
    rw [hc] at ha
    cases res with
    | error e =>
        exfalso
        unfold NewWatcher at h
        rw [hc] at h
        simp at h
    | ok c =>
        simp only at ha
        rcases List.mem_append.mp ha with h1 | h1
        · exact hw c (by rw [hc]) a (by rw [hc]; exact h1)
        · rcases List.mem_cons.mp h1 with h2 | h2
          · subst h2; rfl
          · have h3 := List.mem_singleton.mp h2
            subst h3; rfl
  · intro envU a ha
    have h2 := List.mem_singleton.mp ha
    subst h2; rfl
  · intro envs
    exact backgroundLoop_isClose_false w envs
  · intro cb
    rfl

/-- C10: a watcher whose callback was never set is safe under any received
events: the nil-check means no callback invocation ever happens (neither in
the raw receive loop nor in a full `subscribe` attempt), a stream consisting
only of data messages leaves the loop still receiving, and
`SetUpdateCallback` itself always returns `nil`. -/
theorem C10_nil_callback (w : Watcher) (envS : RedisEnv) (evs : List RedisEvent)
    (hcb : w.callback = none) :
    (∀ a ∈ (receiveLoop w.callback evs).1, a.isInvoke = false) ∧
    (∀ a ∈ (subscribe w envS).1, a.isInvoke = false) ∧
    ((∀ ev ∈ evs, ∃ ch d, ev = RedisEvent.message ch d) →
      receiveLoop w.callback evs = ([], none)) ∧
    (∀ cb, (SetUpdateCallback w cb).2 = none) := by
  refine ⟨?_, ?_, ?_, fun cb => rfl⟩
  · rw [hcb]
    exact receiveLoop_none_no_invoke evs
  · intro a ha
    unfold subscribe at ha
    cases hs : envS.subscribeResult with
    | some e =>
        rw [hs] at ha
        have h2 := List.mem_singleton.mp ha
        subst h2; rfl
    | none =>
        rw [hs] at ha
        simp only at ha
        cases hr : (receiveLoop w.callback envS.events).2 with
        | some exit =>
            rw [hr] at ha
            rcases List.mem_cons.mp ha with h1 | h1
            · subst h1; rfl
            · rcases List.mem_append.mp h1 with h2 | h2
              · rw [hcb] at h2
                exact receiveLoop_none_no_invoke envS.events a h2
              · have h3 := List.mem_singleton.mp h2
                subst h3; rfl
        | none =>
            rw [hr] at ha
            rcases List.mem_cons.mp ha with h1 | h1
            · subst h1; rfl
            · rw [hcb] at h1
              exact receiveLoop_none_no_invoke envS.events a h1
  · intro hmsg
    rw [hcb]
    exact receiveLoop_none_messages evs hmsg

/-- Witness for C3: wrong password against a broker that rejects `AUTH`. -/
theorem C3_auth_failure_witness :
    NewWatcher "127.0.0.1:6379" [setPassword "wrongpw"] envAuthFail =
      ([.dial (applySetters [setPassword "wrongpw"]).Protocol "127.0.0.1:6379",
        .doCmd 1 "AUTH" [(applySetters [setPassword "wrongpw"]).Password], .closeConn 1],
       .error "ERR invalid password") ∧
    Action.closeConn 1 ∈ (NewWatcher "127.0.0.1:6379" [setPassword "wrongpw"] envAuthFail).1 ∧
    Action.startLoop ∉ (NewWatcher "127.0.0.1:6379" [setPassword "wrongpw"] envAuthFail).1 :=
  C3_auth_failure "127.0.0.1:6379" [setPassword "wrongpw"] envAuthFail 1 "ERR invalid password"
    rfl (by decide) rfl rfl

/-- Witness for C4: dialing an unreachable address. -/
theorem C4_dial_failure_witness :
    NewWatcher "bad-host:6379" [] envDialFail =
      ([.dial (applySetters []).Protocol "bad-host:6379"], .error "connection refused") ∧
    Action.startLoop ∉ (NewWatcher "bad-host:6379" [] envDialFail).1 :=
  C4_dial_failure "bad-host:6379" [] envDialFail "connection refused" rfl rfl

/-- Witness for C5: a supplied connection is adopted even with a password set,
with the address and network environment ignored. -/
theorem C5_adopt_connection_witness :
    NewWatcher "ignored:1" [withConnection 9, setPassword "pw"] envOk =
      ([.setFinalizer, .startLoop],
       .ok { options := applySetters [withConnection 9, setPassword "pw"],
             connection := 9, callback := none }) ∧
    NewWatcher "ignored:1" [withConnection 9, setPassword "pw"] envOk =
      NewWatcher "other:2" [withConnection 9, setPassword "pw"] envDialFail :=
  C5_adopt_connection "ignored:1" "other:2" [withConnection 9, setPassword "pw"]
    envOk envDialFail 9 rfl

/-- Witness for C6: an `EOF` error event, with a further attempt following. -/
theorem C6_error_event_witness :
    subscribe wDemo envErrEvent =
      ([.subscribeCmd wDemo.connection wDemo.options.Channel, .unsubscribeCmd wDemo.connection],
       some (.withError "EOF")) ∧
    subscribe wDemo { envErrEvent with unsubscribeResult := some "oops" } =
      subscribe wDemo envErrEvent ∧
    backgroundLoop wDemo (envErrEvent :: [envCountZero]) =
      [.subscribeCmd wDemo.connection wDemo.options.Channel, .unsubscribeCmd wDemo.connection,
       .logSubscribeFailure "EOF"] ++ backgroundLoop wDemo [envCountZero] :=
  C6_error_event wDemo envErrEvent [] "EOF" [envCountZero] (some "oops") rfl rfl

/-- Witness for C7: three setters, the last overriding the channel again. -/
theorem C7_defaults_and_order_witness :
    wCustom.options = applySetters [setChannel "/custom", setPassword "pw", setChannel "/x"] ∧
    applySetters [] =
      { Channel := "/casbin", Protocol := "tcp", Password := "", Connection := none } ∧
    (∀ (ss : List (WatcherOptions → WatcherOptions)) (s : WatcherOptions → WatcherOptions),
      applySetters (ss ++ [s]) = s (applySetters ss)) :=
  C7_defaults_and_order "" [setChannel "/custom", setPassword "pw", setChannel "/x"]
    envOk wCustom rfl

/-- Witness for C8: a subscription event with count zero. -/
theorem C8_count_zero_witness :
    subscribe wDemo envCountZero =
      ([.subscribeCmd wDemo.connection wDemo.options.Channel, .unsubscribeCmd wDemo.connection],
       some .clean) ∧
    backgroundLoop wDemo (envCountZero :: []) =
      [.subscribeCmd wDemo.connection wDemo.options.Channel, .unsubscribeCmd wDemo.connection] ++
        backgroundLoop wDemo [] :=
  C8_count_zero wDemo envCountZero "unsubscribe" "/casbin" [] [] rfl rfl

/-- Witness for C9: the default construction and its finalizer. -/
theorem C9_close_exactly_once_witness :
    finalizer wDemo = [Action.closeConn wDemo.connection] ∧
    (finalizer wDemo).countP Action.isClose = 1 ∧
    Action.setFinalizer ∈ (NewWatcher "127.0.0.1:6379" [] envOk).1 ∧
    (∀ a ∈ (NewWatcher "127.0.0.1:6379" [] envOk).1, a.isClose = false) ∧
    (∀ envU, ∀ a ∈ (Update wDemo envU).1, a.isClose = false) ∧
    (∀ envs, ∀ a ∈ backgroundLoop wDemo envs, a.isClose = false) ∧
    (∀ cb, ((SetUpdateCallback wDemo cb).1).connection = wDemo.connection) :=
  C9_close_exactly_once "127.0.0.1:6379" [] envOk wDemo rfl

/-- Witness for C10: a watcher with no callback receiving a data message. -/
theorem C10_nil_callback_witness :
    (∀ a ∈ (receiveLoop wDemo.callback [RedisEvent.message "/casbin" "casbin rules updated"]).1,
      a.isInvoke = false) ∧
    (∀ a ∈ (subscribe wDemo envOk).1, a.isInvoke = false) ∧
    ((∀ ev ∈ [RedisEvent.message "/casbin" "casbin rules updated"],
        ∃ ch d, ev = RedisEvent.message ch d) →
      receiveLoop wDemo.callback [RedisEvent.message "/casbin" "casbin rules updated"] =
        ([], none)) ∧
    (∀ cb, (SetUpdateCallback wDemo cb).2 = none) :=
  C10_nil_callback wDemo envOk [RedisEvent.message "/casbin" "casbin rules updated"] rfl

end RedisWatcher
